import Mathlib

/-!
Formal model of the quiz-taking engine of `classroom/views/students.py`
(the `take_quiz` view), a per-(student, quiz) scoring state machine that
keeps a running score and a streak exponent in a server-side session and
persists one StudentAnswer per submission plus, on the completing
submission, one TakenQuiz record with the final percentage score.

Conventions of the embedding:
* One student and one target quiz are in scope; the persisted rows visible
  to the engine (the quiz with its questions and answers, the submitted
  answers of the student, the TakenQuiz rows of the student) are explicit
  state.
* Python integers are `Int` / `Nat`; Python true division feeding `round`
  is kept exact, and percentage scores are represented in hundredths of a
  percent so that all engine arithmetic is exact integer arithmetic.
  `round(x)` / `round(x, 2)` (round half to even) on these exact values is
  `divRound`; the claim-level formula with rational arithmetic is
  `pyRound` / `pyRound2`, and `divRound_eq_pyRound` connects the two.
* The session is a string-keyed store of integers, as in Django; absent
  keys read through defaults via `sget`.
-/

namespace Classroom

/-- An `Answer` row: primary key and correctness flag. -/
structure Answer where
  id : ℕ
  is_correct : Bool
  deriving DecidableEq

/-- A `Question` row: primary key and its set of `Answer` rows. -/
structure Question where
  id : ℕ
  answers : List Answer
  deriving DecidableEq

/-- A `Quiz` row: primary key and its question set. -/
structure Quiz where
  id : ℕ
  questions : List Question
  deriving DecidableEq

/-- A `StudentAnswer` row of the student: the chosen answer id. -/
structure StudentAnswer where
  answer_id : ℕ
  deriving DecidableEq

/-- The Django session: a string-keyed integer store. -/
def Session : Type := String → Option ℤ

/-- `request.session.get(key, default)`. -/
def sget (s : Session) (key : String) (dflt : ℤ) : ℤ := (s key).getD dflt

/-- `request.session[key] = v`. -/
def sset (s : Session) (key : String) (v : ℤ) : Session :=
  fun k => if k = key then some v else s k

/-- The session key `'temp_score_' + str(quiz.id)` (line 111). -/
def temp_score_name (quiz_id : ℕ) : String := "temp_score_" ++ toString quiz_id

/-- The session key `'next_exponent_' + str(quiz.id)` (line 112). -/
def next_exponent_name (quiz_id : ℕ) : String := "next_exponent_" ++ toString quiz_id

/-- All state the engine reads or writes for one student and one quiz. -/
structure EngineState where
  quiz : Quiz
  /-- The submitted `StudentAnswer` rows of the student (`student.quiz_answers`). -/
  quiz_answers : List StudentAnswer
  /-- The `TakenQuiz` rows of the student, as (quiz id, score in hundredths of a percent). -/
  taken_quizzes : List (ℕ × ℤ)
  session : Session

/-- All `Answer` rows attached to questions of the quiz. -/
def Quiz.allAnswers (q : Quiz) : List Answer :=
  (q.questions.map Question.answers).flatten

/-- Modelled from the spec: `Student.get_unanswered_questions` (model code not
under `src/`): the set difference between the question set of the quiz and the
questions already answered by the student, in the question order of the quiz;
a question counts as answered when some submitted answer of the student
references one of its answer rows. -/
def get_unanswered_questions (quiz : Quiz) (quiz_answers : List StudentAnswer) :
    List Question :=
  quiz.questions.filter (fun q =>
    !(quiz_answers.any (fun sa => q.answers.any (fun a => a.id == sa.answer_id))))

/-- Modelled from the spec: `TakeQuizForm` validation (form code not under
`src/`): a submission is valid exactly when the chosen answer id belongs to
the answer set of the current question. -/
def formIsValid (question : Question) (answer_id : ℕ) : Bool :=
  question.answers.any (fun a => a.id == answer_id)

/-- `student.quiz_answers.filter(answer__question__quiz=quiz,
answer__is_correct=True).count()` (line 160): the submitted answers of the
student that reference a correct answer row of this quiz. -/
def countCorrect (quiz : Quiz) (quiz_answers : List StudentAnswer) : ℕ :=
  (quiz_answers.filter (fun sa =>
    quiz.allAnswers.any (fun a => a.id == sa.answer_id && a.is_correct))).length

/-- Python `round` (round half to even) of the exact fraction `n / d`,
for a positive denominator `d`, written with integer division so that it
evaluates by kernel reduction. -/
def divRound (n : ℤ) (d : ℕ) : ℤ :=
  let q := n / (d : ℤ)
  let r := n % (d : ℤ)
  if 2 * r < (d : ℤ) then q
  else if (d : ℤ) < 2 * r then q + 1
  else if q % 2 = 0 then q else q + 1

/-- Python `round(x)` (round half to even) on an exact rational value. -/
def pyRound (x : ℚ) : ℤ :=
  let f := ⌊x⌋
  if x - f < 1 / 2 then f
  else if 1 / 2 < x - f then f + 1
  else if f % 2 = 0 then f else f + 1

/-- Python `round(x, 2)` (round half to even at two decimals) on an exact
rational value. -/
def pyRound2 (x : ℚ) : ℚ := (pyRound (x * 100) : ℚ) / 100

/-- One HTTP request to the view: a GET, or a POST carrying the chosen
answer id. -/
inductive Req
  | get
  | post (answer_id : ℕ)

/-- The response of the view, with the data the claims are about. Scores
are in hundredths of a percent. -/
inductive Outcome
  /-- line 84: render of the already-taken page. -/
  | renderTakenQuiz
  /-- line 172: render of the question form, carrying the progress value. -/
  | renderForm (progress : ℤ)
  /-- line 157: redirect back into the quiz for the next question. -/
  | redirectNextQuestion
  /-- lines 163-168: completion; score and whether the success message was attached. -/
  | redirectQuizList (score : ℤ) (success : Bool)
  /-- line 89 raises ZeroDivisionError when the quiz has no questions. -/
  | zeroDivisionError
  /-- line 107: `Answer.objects.get` raised (no or several correct answers). -/
  | answerLookupError
  /-- `TakeQuizForm(question=None)` raised (no unanswered question left). -/
  | formBuildError
  /-- A storage write raised inside the transaction (fault model of C7). -/
  | storageError
  deriving DecidableEq

/-- Shallow embedding of the `take_quiz` view (students.py lines 79-177) for
one student and one quiz. Comments give the source lines. `2 ** next_exponent`
is embedded as `2 ^ next_exponent.toNat`; the engine only ever stores exponent
values `≥ 1`, on which the two agree. -/
def take_quiz (st : EngineState) (req : Req) : EngineState × Outcome :=
  -- line 83: student.quizzes.filter(pk=pk).exists()
  if st.taken_quizzes.any (fun t => t.1 == st.quiz.id) then
    (st, .renderTakenQuiz)
  else
    -- lines 86-88
    let total_questions := st.quiz.questions.length
    let unanswered_questions := get_unanswered_questions st.quiz st.quiz_answers
    let total_unanswered_questions := unanswered_questions.length
    if total_questions = 0 then
      -- line 89 divides by total_questions and raises ZeroDivisionError
      (st, .zeroDivisionError)
    else
      -- line 89: 100 - round(((total_unanswered_questions - 1) / total_questions) * 100)
      let progress : ℤ :=
        100 - divRound (((total_unanswered_questions : ℤ) - 1) * 100) total_questions
      -- line 90: unanswered_questions.first()
      match req, unanswered_questions.head? with
      | .get, some _ => (st, .renderForm progress)
      | .get, none => (st, .formBuildError)
      | .post _, none => (st, .formBuildError)
      | .post answer_id, some question =>
        -- lines 93-94: TakeQuizForm validation
        if formIsValid question answer_id then
          -- line 95: transaction.atomic around lines 99-168
          -- lines 99-101: student_answer.save()
          let st1 : EngineState := { st with quiz_answers := st.quiz_answers ++ [⟨answer_id⟩] }
          -- line 107: Answer.objects.get(question=question.id, is_correct=True)
          match question.answers.filter (fun a => a.is_correct) with
          | [correct_answer] =>
            let tname := temp_score_name st.quiz.id
            let ename := next_exponent_name st.quiz.id
            -- lines 117, 120: session reads with defaults 0 and 1
            let temp_score := sget st1.session tname 0
            let next_exponent := sget st1.session ename 1
            -- lines 139-149 (lines 118 and 121 rewrite temp_score and are
            -- overwritten by both branches below)
            let session2 :=
              if answer_id == correct_answer.id then
                sset (sset st1.session tname (temp_score + 2 ^ next_exponent.toNat))
                  ename (next_exponent + 1)
              else
                sset (sset st1.session tname (temp_score - 2)) ename 1
            let st2 : EngineState := { st1 with session := session2 }
            -- line 156: student.get_unanswered_questions(quiz).exists()
            if (get_unanswered_questions st.quiz st1.quiz_answers).isEmpty then
              -- lines 160-168
              let correct_answers := countCorrect st.quiz st1.quiz_answers
              -- line 162: round((correct_answers / total_questions) * 100.0, 2),
              -- in hundredths: round half to even of correct_answers * 10000 / total_questions
              let score := divRound ((correct_answers : ℤ) * 10000) total_questions
              let st3 : EngineState :=
                { st2 with taken_quizzes := st2.taken_quizzes ++ [(st.quiz.id, score)] }
              -- lines 164-167: score < 50.0 in hundredths
              if score < 5000 then (st3, .redirectQuizList score false)
              else (st3, .redirectQuizList score true)
            else
              (st2, .redirectNextQuestion)
          | _ =>
            -- Answer.objects.get raised; transaction.atomic rolls the save back
            (st, .answerLookupError)
        else
          -- invalid form falls through to the render at line 172
          (st, .renderForm progress)

/-- The running score of the attempt: the session value under
`temp_score_<quiz id>`, read with the default 0 used at line 117. -/
def tempScore (st : EngineState) : ℤ :=
  sget st.session (temp_score_name st.quiz.id) 0

/-- The streak exponent of the attempt: the session value under
`next_exponent_<quiz id>`, read with the default 1 used at line 120. -/
def nextExponent (st : EngineState) : ℤ :=
  sget st.session (next_exponent_name st.quiz.id) 1

/-- The progress value of line 89, in percent. -/
def progressOf (st : EngineState) : ℤ :=
  100 - divRound (((get_unanswered_questions st.quiz st.quiz_answers).length - 1 : ℤ) * 100)
    st.quiz.questions.length

/-- A fresh attempt: neither session key of this quiz holds a value yet. -/
def FreshSession (st : EngineState) : Prop :=
  st.session (temp_score_name st.quiz.id) = none ∧
    st.session (next_exponent_name st.quiz.id) = none

/-- One processed submission of the correct answer: the view accepts the
state, the current question has a unique correct answer, and that answer id
is submitted. -/
def CorrectSubmission (st st' : EngineState) : Prop :=
  ∃ q ca,
    (st.taken_quizzes.any fun t => t.1 == st.quiz.id) = false ∧
    st.quiz.questions.length ≠ 0 ∧
    (get_unanswered_questions st.quiz st.quiz_answers).head? = some q ∧
    q.answers.filter (fun a => a.is_correct) = [ca] ∧
    st' = (take_quiz st (.post ca.id)).1

/-- `CorrectRun st n st'`: starting from `st`, the student submits `n`
consecutive correct answers and the state evolves to `st'`. -/
inductive CorrectRun : EngineState → ℕ → EngineState → Prop
  | zero (st : EngineState) : CorrectRun st 0 st
  | succ {st st' st'' : EngineState} {n : ℕ} :
      CorrectRun st n st' → CorrectSubmission st' st'' → CorrectRun st (n + 1) st''

/-- The number of TakenQuiz rows of the student for the attempted quiz. -/
def countTaken (st : EngineState) : ℕ :=
  (st.taken_quizzes.filter fun t => t.1 == st.quiz.id).length

/-- `take_quiz` under a storage-fault model for the transaction of line 95:
`failSave` makes the StudentAnswer insert of line 101 raise, `failCreate`
makes the TakenQuiz insert of line 163 raise. A raise inside
`transaction.atomic` rolls every persisted write of the block back, so the
persisted lists revert to those of `st`; the in-memory session assignments
are outside the transactional guarantee and are kept. With no fault this
is exactly `take_quiz`. -/
def take_quiz_faulty (st : EngineState) (req : Req) (failSave failCreate : Bool) :
    EngineState × Outcome :=
  if st.taken_quizzes.any (fun t => t.1 == st.quiz.id) then
    (st, .renderTakenQuiz)
  else
    let total_questions := st.quiz.questions.length
    let unanswered_questions := get_unanswered_questions st.quiz st.quiz_answers
    let total_unanswered_questions := unanswered_questions.length
    if total_questions = 0 then
      (st, .zeroDivisionError)
    else
      let progress : ℤ :=
        100 - divRound (((total_unanswered_questions : ℤ) - 1) * 100) total_questions
      match req, unanswered_questions.head? with
      | .get, some _ => (st, .renderForm progress)
      | .get, none => (st, .formBuildError)
      | .post _, none => (st, .formBuildError)
      | .post answer_id, some question =>
        if formIsValid question answer_id then
          if failSave then
            -- line 101 raised: the transaction leaves no write behind
            (st, .storageError)
          else
            let st1 : EngineState := { st with quiz_answers := st.quiz_answers ++ [⟨answer_id⟩] }
            match question.answers.filter (fun a => a.is_correct) with
            | [correct_answer] =>
              let tname := temp_score_name st.quiz.id
              let ename := next_exponent_name st.quiz.id
              let temp_score := sget st1.session tname 0
              let next_exponent := sget st1.session ename 1
              let session2 :=
                if answer_id == correct_answer.id then
                  sset (sset st1.session tname (temp_score + 2 ^ next_exponent.toNat))
                    ename (next_exponent + 1)
                else
                  sset (sset st1.session tname (temp_score - 2)) ename 1
              let st2 : EngineState := { st1 with session := session2 }
              if (get_unanswered_questions st.quiz st1.quiz_answers).isEmpty then
                if failCreate then
                  -- line 163 raised: the StudentAnswer write of line 101 is
                  -- rolled back with it; only the session assignments remain
                  ({ st with session := session2 }, .storageError)
                else
                  let correct_answers := countCorrect st.quiz st1.quiz_answers
                  let score := divRound ((correct_answers : ℤ) * 10000) total_questions
                  let st3 : EngineState :=
                    { st2 with taken_quizzes := st2.taken_quizzes ++ [(st.quiz.id, score)] }
                  if score < 5000 then (st3, .redirectQuizList score false)
                  else (st3, .redirectQuizList score true)
              else
                (st2, .redirectNextQuestion)
            | _ =>
              (st, .answerLookupError)
        else
          (st, .renderForm progress)

/-! ### Concrete states used to instantiate the theorems -/

/-- A two-question quiz; each question has one correct and one wrong answer. -/
def wQuiz : Quiz := ⟨7, [⟨1, [⟨11, true⟩, ⟨12, false⟩]⟩, ⟨2, [⟨21, false⟩, ⟨22, true⟩]⟩]⟩

/-- A fresh attempt at `wQuiz`: no answers, no TakenQuiz, empty session. -/
def wSt : EngineState := ⟨wQuiz, [], [], fun _ => none⟩

/-- `wQuiz` with the first question already answered correctly: the next
submission is the completing one. -/
def wStLast : EngineState := ⟨wQuiz, [⟨11⟩], [], fun _ => none⟩

/-- A state in which the student already has a TakenQuiz row for `wQuiz`. -/
def wStTaken : EngineState := ⟨wQuiz, [], [(7, 10000)], fun _ => none⟩

/-- A quiz with an empty question set, not yet taken. -/
def wStEmpty : EngineState := ⟨⟨3, []⟩, [], [], fun _ => none⟩

/-! ### Basic lemmas about the session store and the engine -/

lemma temp_ne_next (i : ℕ) : temp_score_name i ≠ next_exponent_name i := by
  intro h
  have h1 := congrArg String.length h
  simp only [temp_score_name, next_exponent_name, String.length_append] at h1
  have h2 : ("temp_score_" : String).length = 11 := by decide
  have h3 : ("next_exponent_" : String).length = 14 := by decide
  omega

lemma sget_sset_same (s : Session) (k : String) (v d : ℤ) : sget (sset s k v) k d = v := by
  simp [sget, sset]

lemma sget_sset_ne (s : Session) (k k' : String) (v d : ℤ) (h : k' ≠ k) :
    sget (sset s k v) k' d = sget s k' d := by
  simp [sget, sset, h]

/-- The view never changes which quiz is attempted. -/
lemma take_quiz_quiz_eq (st : EngineState) (req : Req) :
    ((take_quiz st req).1).quiz = st.quiz := by
  cases req <;> simp only [take_quiz] <;> (repeat' split) <;> rfl

/-- The submitted id of the unique correct answer passes form validation. -/
lemma formIsValid_correct {q : Question} {ca : Answer}
    (hca : q.answers.filter (fun a => a.is_correct) = [ca]) :
    formIsValid q ca.id = true := by
  have hmem : ca ∈ q.answers.filter (fun a => a.is_correct) := by
    rw [hca]; exact List.mem_singleton.mpr rfl
  rw [List.mem_filter] at hmem
  exact List.any_eq_true.mpr ⟨ca, hmem.1, by simp⟩

/-- Session after a processed correct submission (lines 141-142). -/
lemma session_after_correct
    (st : EngineState) (q : Question) (ca : Answer) (aid : ℕ)
    (hnt : (st.taken_quizzes.any fun t => t.1 == st.quiz.id) = false)
    (htq : st.quiz.questions.length ≠ 0)
    (hq : (get_unanswered_questions st.quiz st.quiz_answers).head? = some q)
    (hca : q.answers.filter (fun a => a.is_correct) = [ca])
    (haid : aid = ca.id) :
    ((take_quiz st (.post aid)).1).session =
      sset (sset st.session (temp_score_name st.quiz.id)
          (sget st.session (temp_score_name st.quiz.id) 0 +
            2 ^ (sget st.session (next_exponent_name st.quiz.id) 1).toNat))
        (next_exponent_name st.quiz.id)
        (sget st.session (next_exponent_name st.quiz.id) 1 + 1) := by
  subst haid
  have hv := formIsValid_correct hca
  simp only [take_quiz, hnt, hq, hca, hv, if_neg htq, Bool.false_eq_true, if_false,
    beq_self_eq_true, if_true]
  (repeat' split) <;> rfl

/-- Session after a processed incorrect submission (lines 146-148). -/
lemma session_after_wrong
    (st : EngineState) (q : Question) (ca : Answer) (aid : ℕ)
    (hnt : (st.taken_quizzes.any fun t => t.1 == st.quiz.id) = false)
    (htq : st.quiz.questions.length ≠ 0)
    (hq : (get_unanswered_questions st.quiz st.quiz_answers).head? = some q)
    (hca : q.answers.filter (fun a => a.is_correct) = [ca])
    (hv : formIsValid q aid = true)
    (hne : aid ≠ ca.id) :
    ((take_quiz st (.post aid)).1).session =
      sset (sset st.session (temp_score_name st.quiz.id)
          (sget st.session (temp_score_name st.quiz.id) 0 - 2))
        (next_exponent_name st.quiz.id) 1 := by
  have hbeq : (aid == ca.id) = false := beq_eq_false_iff_ne.mpr hne
  simp only [take_quiz, hnt, hq, hca, hv, hbeq, if_neg htq, Bool.false_eq_true, if_false,
    if_true]
  (repeat' split) <;> rfl

end Classroom

namespace Classroom

/-- Running score and exponent after a processed correct submission, as read
back through the accessors. -/
lemma scores_after_correct
    (st : EngineState) (q : Question) (ca : Answer) (aid : ℕ)
    (hnt : (st.taken_quizzes.any fun t => t.1 == st.quiz.id) = false)
    (htq : st.quiz.questions.length ≠ 0)
    (hq : (get_unanswered_questions st.quiz st.quiz_answers).head? = some q)
    (hca : q.answers.filter (fun a => a.is_correct) = [ca])
    (haid : aid = ca.id) :
    tempScore ((take_quiz st (.post aid)).1)
        = tempScore st + 2 ^ (nextExponent st).toNat ∧
      nextExponent ((take_quiz st (.post aid)).1) = nextExponent st + 1 := by
  have hs := session_after_correct st q ca aid hnt htq hq hca haid
  have hqz := take_quiz_quiz_eq st (.post aid)
  constructor
  · rw [tempScore, hqz, hs, sget_sset_ne _ _ _ _ _ (temp_ne_next _), sget_sset_same]
    rfl
  · rw [nextExponent, hqz, hs, sget_sset_same]
    rfl

/-- Running score and exponent after a processed incorrect submission. -/
lemma scores_after_wrong
    (st : EngineState) (q : Question) (ca : Answer) (aid : ℕ)
    (hnt : (st.taken_quizzes.any fun t => t.1 == st.quiz.id) = false)
    (htq : st.quiz.questions.length ≠ 0)
    (hq : (get_unanswered_questions st.quiz st.quiz_answers).head? = some q)
    (hca : q.answers.filter (fun a => a.is_correct) = [ca])
    (hv : formIsValid q aid = true)
    (hne : aid ≠ ca.id) :
    tempScore ((take_quiz st (.post aid)).1) = tempScore st - 2 ∧
      nextExponent ((take_quiz st (.post aid)).1) = 1 := by
  have hs := session_after_wrong st q ca aid hnt htq hq hca hv hne
  have hqz := take_quiz_quiz_eq st (.post aid)
  constructor
  · rw [tempScore, hqz, hs, sget_sset_ne _ _ _ _ _ (temp_ne_next _), sget_sset_same]
    rfl
  · rw [nextExponent, hqz, hs, sget_sset_same]

/-- Invariant of a streak of correct answers from a fresh attempt: after `n`
submissions the running score is `2 ^ (n + 1) - 2` and the exponent is
`n + 1`. -/
lemma pow_streak_step (m : ℕ) :
    (2 : ℤ) ^ (m + 1) - 2 + 2 ^ (((m : ℤ) + 1).toNat) = 2 ^ (m + 1 + 1) - 2 := by
  have h : ((m : ℤ) + 1).toNat = m + 1 := by omega
  rw [h, pow_succ]
  ring

lemma correctRun_invariant {st : EngineState} : ∀ {n : ℕ} {st' : EngineState},
    CorrectRun st n st' → FreshSession st →
    st'.quiz = st.quiz ∧ tempScore st' = 2 ^ (n + 1) - 2 ∧
      nextExponent st' = n + 1
  | _, _, .zero _, hf =>
    ⟨rfl, by rw [tempScore, sget, hf.1]; rfl, by rw [nextExponent, sget, hf.2]; rfl⟩
  | _, _, .succ hrun hsub, hf => by
    obtain ⟨hquiz, htemp, hexp⟩ := correctRun_invariant hrun hf
    obtain ⟨q, ca, hnt, htq, hq, hca, hst⟩ := hsub
    subst hst
    refine ⟨by rw [take_quiz_quiz_eq, hquiz], ?_, ?_⟩
    · rw [(scores_after_correct _ q ca ca.id hnt htq hq hca rfl).1, htemp, hexp]
      exact pow_streak_step _
    · rw [(scores_after_correct _ q ca ca.id hnt htq hq hca rfl).2, hexp]
      push_cast
      ring

end Classroom

namespace Classroom

/-! ### Claim theorems -/

/-- Claim C1: a submission of the correct answer moves the session state from
(temp_score, next_exponent) to (temp_score + 2 ^ next_exponent,
next_exponent + 1); consequently a fresh attempt of n consecutive correct
answers reaches a running score of 2 ^ (n + 1) - 2. -/
theorem correct_answer_updates_session_and_streak_score :
    (∀ (st : EngineState) (q : Question) (ca : Answer) (aid : ℕ),
      (st.taken_quizzes.any fun t => t.1 == st.quiz.id) = false →
      st.quiz.questions.length ≠ 0 →
      (get_unanswered_questions st.quiz st.quiz_answers).head? = some q →
      q.answers.filter (fun a => a.is_correct) = [ca] →
      aid = ca.id →
      1 ≤ nextExponent st →
      tempScore ((take_quiz st (.post aid)).1)
          = tempScore st + 2 ^ (nextExponent st).toNat ∧
        (((nextExponent st).toNat : ℤ) = nextExponent st) ∧
        nextExponent ((take_quiz st (.post aid)).1) = nextExponent st + 1) ∧
    (∀ (st st' : EngineState) (n : ℕ),
      FreshSession st → CorrectRun st n st' →
      tempScore st' = 2 ^ (n + 1) - 2) := by
  constructor
  · intro st q ca aid hnt htq hq hca haid hexp
    obtain ⟨h1, h2⟩ := scores_after_correct st q ca aid hnt htq hq hca haid
    exact ⟨h1, by omega, h2⟩
  · intro st st' n hf hrun
    exact (correctRun_invariant hrun hf).2.1

/-- Witness for C1 at a concrete fresh two-question quiz. -/
theorem correct_answer_updates_session_and_streak_score_witness :
    (tempScore ((take_quiz wSt (.post 11)).1)
        = tempScore wSt + 2 ^ (nextExponent wSt).toNat ∧
      (((nextExponent wSt).toNat : ℤ) = nextExponent wSt) ∧
      nextExponent ((take_quiz wSt (.post 11)).1) = nextExponent wSt + 1) ∧
    tempScore wSt = 2 ^ (0 + 1) - 2 :=
  ⟨correct_answer_updates_session_and_streak_score.1 wSt
      ⟨1, [⟨11, true⟩, ⟨12, false⟩]⟩ ⟨11, true⟩ 11
      (by decide) (by decide) (by decide) (by decide) rfl (by decide),
    correct_answer_updates_session_and_streak_score.2 wSt wSt 0
      ⟨rfl, rfl⟩ (.zero wSt)⟩

/-- Claim C3: a submission of a wrong (but well-formed) answer moves the
session state from (temp_score, next_exponent) to (temp_score - 2, 1),
whatever the prior streak was. -/
theorem wrong_answer_subtracts_two_and_resets_exponent
    (st : EngineState) (q : Question) (ca : Answer) (aid : ℕ)
    (hnt : (st.taken_quizzes.any fun t => t.1 == st.quiz.id) = false)
    (htq : st.quiz.questions.length ≠ 0)
    (hq : (get_unanswered_questions st.quiz st.quiz_answers).head? = some q)
    (hca : q.answers.filter (fun a => a.is_correct) = [ca])
    (hv : formIsValid q aid = true)
    (hne : aid ≠ ca.id) :
    tempScore ((take_quiz st (.post aid)).1) = tempScore st - 2 ∧
      nextExponent ((take_quiz st (.post aid)).1) = 1 :=
  scores_after_wrong st q ca aid hnt htq hq hca hv hne

/-- Witness for C3 at a concrete fresh two-question quiz. -/
theorem wrong_answer_subtracts_two_and_resets_exponent_witness :
    tempScore ((take_quiz wSt (.post 12)).1) = tempScore wSt - 2 ∧
      nextExponent ((take_quiz wSt (.post 12)).1) = 1 :=
  wrong_answer_subtracts_two_and_resets_exponent wSt
    ⟨1, [⟨11, true⟩, ⟨12, false⟩]⟩ ⟨11, true⟩ 12
    (by decide) (by decide) (by decide) (by decide) (by decide) (by decide)

end Classroom

namespace Classroom

/-- `divRound` computes Python `round` of the exact fraction `n / d`. -/
lemma divRound_eq_pyRound (n : ℤ) (d : ℕ) (hd : d ≠ 0) :
    divRound n d = pyRound ((n : ℚ) / (d : ℚ)) := by
  have hdQ : (0 : ℚ) < (d : ℚ) := by exact_mod_cast Nat.pos_of_ne_zero hd
  have hfl : ⌊(n : ℚ) / (d : ℚ)⌋ = n / (d : ℤ) := by
    exact_mod_cast Rat.floor_intCast_div_natCast n d
  have hsum : (d : ℤ) * (n / (d : ℤ)) + n % (d : ℤ) = n := Int.ediv_add_emod n d
  have hsumQ : (d : ℚ) * ((n / (d : ℤ) : ℤ) : ℚ) + ((n % (d : ℤ) : ℤ) : ℚ) = (n : ℚ) := by
    exact_mod_cast congrArg (fun z : ℤ => (z : ℚ)) hsum
  have hfr : (n : ℚ) / (d : ℚ) - ((n / (d : ℤ) : ℤ) : ℚ)
      = ((n % (d : ℤ) : ℤ) : ℚ) / (d : ℚ) := by
    field_simp
    linarith [hsumQ]
  have hdcast : (((d : ℤ)) : ℚ) = (d : ℚ) := Int.cast_natCast d
  have hiff1 : ((n % (d : ℤ) : ℤ) : ℚ) / (d : ℚ) < 1 / 2 ↔ 2 * (n % (d : ℤ)) < (d : ℤ) := by
    rw [div_lt_div_iff₀ hdQ (by norm_num : (0 : ℚ) < 2), one_mul, ← hdcast,
      show ((n % (d : ℤ) : ℤ) : ℚ) * 2 = (((n % (d : ℤ)) * 2 : ℤ) : ℚ) from by push_cast; ring,
      Int.cast_lt]
    omega
  have hiff2 : 1 / 2 < ((n % (d : ℤ) : ℤ) : ℚ) / (d : ℚ) ↔ (d : ℤ) < 2 * (n % (d : ℤ)) := by
    rw [div_lt_div_iff₀ (by norm_num : (0 : ℚ) < 2) hdQ, one_mul, ← hdcast,
      show ((n % (d : ℤ) : ℤ) : ℚ) * 2 = (((n % (d : ℤ)) * 2 : ℤ) : ℚ) from by push_cast; ring,
      Int.cast_lt]
    omega
  simp only [divRound, pyRound, hfl, hfr, hiff1, hiff2]

end Classroom

namespace Classroom

/-- Line 83-84: an existing TakenQuiz row short-circuits the whole view. -/
lemma taken_rejected (st : EngineState) (req : Req)
    (h : (st.taken_quizzes.any fun t => t.1 == st.quiz.id) = true) :
    take_quiz st req = (st, .renderTakenQuiz) := by
  cases req <;> simp [take_quiz, h]

/-- When no TakenQuiz row exists yet, the view either leaves the TakenQuiz
rows alone or appends exactly one row for this quiz. -/
lemma taken_after (st : EngineState) (req : Req)
    (hf : (st.taken_quizzes.any fun t => t.1 == st.quiz.id) = false) :
    ((take_quiz st req).1).taken_quizzes = st.taken_quizzes ∨
      ∃ sc, ((take_quiz st req).1).taken_quizzes = st.taken_quizzes ++ [(st.quiz.id, sc)] := by
  cases req <;> simp only [take_quiz, hf, Bool.false_eq_true, if_false] <;>
    (repeat' split) <;> first | exact Or.inl rfl | exact Or.inr ⟨_, rfl⟩

/-- Claim C4: a student with a TakenQuiz row for the quiz is turned away with
the already-taken page and no state of any kind changes; consequently the
number of TakenQuiz rows per (student, quiz) never grows beyond one. -/
theorem taken_quiz_rejected_and_unique :
    (∀ (st : EngineState) (req : Req),
      (st.taken_quizzes.any fun t => t.1 == st.quiz.id) = true →
      take_quiz st req = (st, .renderTakenQuiz)) ∧
    (∀ (st : EngineState) (req : Req),
      countTaken st ≤ 1 → countTaken ((take_quiz st req).1) ≤ 1) := by
  constructor
  · exact taken_rejected
  · intro st req h
    cases hb : (st.taken_quizzes.any fun t => t.1 == st.quiz.id) with
    | true =>
      rw [taken_rejected st req hb]
      exact h
    | false =>
      rcases taken_after st req hb with heq | ⟨sc, happ⟩
      · unfold countTaken
        rw [take_quiz_quiz_eq, heq]
        exact h
      · have h0 : st.taken_quizzes.filter (fun t => t.1 == st.quiz.id) = [] := by
          rw [List.filter_eq_nil_iff]
          intro t ht
          have := List.any_eq_false.mp hb t ht
          simpa using this
        unfold countTaken
        rw [take_quiz_quiz_eq, happ, List.filter_append, h0]
        simp

/-- Witness for C4 at a state that already holds a TakenQuiz row. -/
theorem taken_quiz_rejected_and_unique_witness :
    take_quiz wStTaken .get = (wStTaken, .renderTakenQuiz) ∧
      countTaken ((take_quiz wStTaken .get).1) ≤ 1 :=
  ⟨taken_quiz_rejected_and_unique.1 wStTaken .get (by decide),
    taken_quiz_rejected_and_unique.2 wStTaken .get (by decide)⟩

/-- Claim C10: a GET for a not-yet-completed quiz mutates nothing: the
resulting state (persisted rows and both session keys) is the input state. -/
theorem get_request_leaves_state_unchanged (st : EngineState)
    (hnt : (st.taken_quizzes.any fun t => t.1 == st.quiz.id) = false) :
    (take_quiz st .get).1 = st := by
  by_cases h0 : st.quiz.questions.length = 0
  · simp [take_quiz, hnt, h0]
  · cases hh : (get_unanswered_questions st.quiz st.quiz_answers).head? <;>
      simp [take_quiz, hnt, h0, hh]

/-- Witness for C10 at a concrete fresh quiz. -/
theorem get_request_leaves_state_unchanged_witness :
    (take_quiz wSt .get).1 = wSt :=
  get_request_leaves_state_unchanged wSt (by decide)

/-- Counterexample to C5 as stated: on a quiz with an empty question set the
engine does divide by zero at the progress computation (there is no
"invalid quiz" signal anywhere in the view). -/
theorem empty_quiz_counterexample :
    (take_quiz wStEmpty .get).2 = .zeroDivisionError := rfl

/-- Claim C5 as amended: a request reaching the engine with a quiz whose
question set is empty (and not already taken) raises ZeroDivisionError at the
progress computation of line 89, before any scoring; no state changes. -/
theorem empty_quiz_raises_zero_division (st : EngineState) (req : Req)
    (hnt : (st.taken_quizzes.any fun t => t.1 == st.quiz.id) = false)
    (hq : st.quiz.questions = []) :
    take_quiz st req = (st, .zeroDivisionError) := by
  cases req <;> simp [take_quiz, hnt, hq]

/-- Witness for the amended C5 at the concrete empty quiz. -/
theorem empty_quiz_raises_zero_division_witness :
    take_quiz wStEmpty (.post 0) = (wStEmpty, .zeroDivisionError) :=
  empty_quiz_raises_zero_division wStEmpty (.post 0) (by decide) rfl

/-- Claim C6: a submission whose answer id does not belong to the current
question is rejected with a re-render of the form and no mutation of any
state. -/
theorem invalid_submission_rejected_without_mutation
    (st : EngineState) (q : Question) (aid : ℕ)
    (hnt : (st.taken_quizzes.any fun t => t.1 == st.quiz.id) = false)
    (htq : st.quiz.questions.length ≠ 0)
    (hq : (get_unanswered_questions st.quiz st.quiz_answers).head? = some q)
    (hinv : formIsValid q aid = false) :
    take_quiz st (.post aid) = (st, .renderForm (progressOf st)) := by
  simp only [take_quiz, hnt, Bool.false_eq_true, if_false, if_neg htq, hq, hinv]
  rfl

/-- Witness for C6: answer id 99 belongs to no question of wQuiz. -/
theorem invalid_submission_rejected_without_mutation_witness :
    take_quiz wSt (.post 99) = (wSt, .renderForm (progressOf wSt)) :=
  invalid_submission_rejected_without_mutation wSt ⟨1, [⟨11, true⟩, ⟨12, false⟩]⟩ 99
    (by decide) (by decide) (by decide) (by decide)

end Classroom

namespace Classroom

/-- The completing submission: characterization of the TakenQuiz write and
the outcome of lines 158-168. -/
lemma complete_submission
    (st : EngineState) (q : Question) (ca : Answer) (aid : ℕ)
    (hnt : (st.taken_quizzes.any fun t => t.1 == st.quiz.id) = false)
    (htq : st.quiz.questions.length ≠ 0)
    (hq : (get_unanswered_questions st.quiz st.quiz_answers).head? = some q)
    (hca : q.answers.filter (fun a => a.is_correct) = [ca])
    (hv : formIsValid q aid = true)
    (hcomp : (get_unanswered_questions st.quiz (st.quiz_answers ++ [⟨aid⟩])).isEmpty = true) :
    ((take_quiz st (.post aid)).1).taken_quizzes
        = st.taken_quizzes ++ [(st.quiz.id,
            divRound ((countCorrect st.quiz (st.quiz_answers ++ [⟨aid⟩]) : ℤ) * 10000)
              st.quiz.questions.length)] ∧
      (take_quiz st (.post aid)).2
        = (if divRound ((countCorrect st.quiz (st.quiz_answers ++ [⟨aid⟩]) : ℤ) * 10000)
              st.quiz.questions.length < 5000 then
            Outcome.redirectQuizList (divRound
              ((countCorrect st.quiz (st.quiz_answers ++ [⟨aid⟩]) : ℤ) * 10000)
              st.quiz.questions.length) false
          else
            Outcome.redirectQuizList (divRound
              ((countCorrect st.quiz (st.quiz_answers ++ [⟨aid⟩]) : ℤ) * 10000)
              st.quiz.questions.length) true) := by
  simp only [take_quiz, hnt, Bool.false_eq_true, if_false, if_neg htq, hq, hca, hv, if_true,
    hcomp]
  split <;> split <;> exact ⟨rfl, rfl⟩

/-- A score of at least 50 percent, in hundredths. -/
lemma fifty_le_iff (s : ℤ) : (50 : ℚ) ≤ (s : ℚ) / 100 ↔ 5000 ≤ s := by
  rw [le_div_iff₀ (by norm_num : (0 : ℚ) < 100)]
  constructor
  · intro h
    have h2 : ((5000 : ℤ) : ℚ) ≤ (s : ℚ) := by push_cast; linarith
    exact_mod_cast h2
  · intro h
    have h2 : ((5000 : ℤ) : ℚ) ≤ (s : ℚ) := by exact_mod_cast h
    push_cast at h2
    linarith

/-- Claim C2: on the completing submission the view appends exactly one
TakenQuiz row whose score is round(correct / total * 100, 2), the correct
count being over the submitted answers referencing a correct answer row; the
session value has no influence (the same row is appended for every session
content). Scores are in hundredths, and the second conjunct identifies the
stored value with the rational rounding formula of line 162. -/
theorem final_score_counts_correct_answers :
    ∀ (st : EngineState) (q : Question) (ca : Answer) (aid : ℕ),
      (st.taken_quizzes.any fun t => t.1 == st.quiz.id) = false →
      st.quiz.questions.length ≠ 0 →
      (get_unanswered_questions st.quiz st.quiz_answers).head? = some q →
      q.answers.filter (fun a => a.is_correct) = [ca] →
      formIsValid q aid = true →
      (get_unanswered_questions st.quiz (st.quiz_answers ++ [⟨aid⟩])).isEmpty = true →
      ((take_quiz st (.post aid)).1).taken_quizzes
          = st.taken_quizzes ++ [(st.quiz.id,
              divRound ((countCorrect st.quiz (st.quiz_answers ++ [⟨aid⟩]) : ℤ) * 10000)
                st.quiz.questions.length)] ∧
        ((divRound ((countCorrect st.quiz (st.quiz_answers ++ [⟨aid⟩]) : ℤ) * 10000)
              st.quiz.questions.length : ℚ) / 100
          = pyRound2 ((countCorrect st.quiz (st.quiz_answers ++ [⟨aid⟩]) : ℚ)
              / (st.quiz.questions.length : ℚ) * 100)) ∧
        (∀ σ : Session,
          ((take_quiz { st with session := σ } (.post aid)).1).taken_quizzes
            = st.taken_quizzes ++ [(st.quiz.id,
                divRound ((countCorrect st.quiz (st.quiz_answers ++ [⟨aid⟩]) : ℤ) * 10000)
                  st.quiz.questions.length)]) := by
  intro st q ca aid hnt htq hq hca hv hcomp
  refine ⟨(complete_submission st q ca aid hnt htq hq hca hv hcomp).1, ?_, ?_⟩
  · rw [pyRound2, divRound_eq_pyRound _ _ htq]
    congr 2
    push_cast
    ring_nf
  · intro σ
    exact (complete_submission { st with session := σ } q ca aid hnt htq hq hca hv hcomp).1

/-- Witness for C2: completing wQuiz with the correct answer of the second
question scores 100 percent (10000 hundredths) however the session looks. -/
theorem final_score_counts_correct_answers_witness :
    ((take_quiz wStLast (.post 22)).1).taken_quizzes
        = wStLast.taken_quizzes ++ [(wStLast.quiz.id,
            divRound ((countCorrect wStLast.quiz (wStLast.quiz_answers ++ [⟨22⟩]) : ℤ) * 10000)
              wStLast.quiz.questions.length)] ∧
      ((divRound ((countCorrect wStLast.quiz (wStLast.quiz_answers ++ [⟨22⟩]) : ℤ) * 10000)
            wStLast.quiz.questions.length : ℚ) / 100
        = pyRound2 ((countCorrect wStLast.quiz (wStLast.quiz_answers ++ [⟨22⟩]) : ℚ)
            / (wStLast.quiz.questions.length : ℚ) * 100)) ∧
      (∀ σ : Session,
        ((take_quiz { wStLast with session := σ } (.post 22)).1).taken_quizzes
          = wStLast.taken_quizzes ++ [(wStLast.quiz.id,
              divRound ((countCorrect wStLast.quiz (wStLast.quiz_answers ++ [⟨22⟩]) : ℤ) * 10000)
                wStLast.quiz.questions.length)]) :=
  final_score_counts_correct_answers wStLast ⟨2, [⟨21, false⟩, ⟨22, true⟩]⟩ ⟨22, true⟩ 22
    (by decide) (by decide) (by decide) (by decide) (by decide) (by decide)

/-- Claim C8: the completing response carries the success flag exactly when
the final score is at least 50 percent, and the boundary is inclusive: the
concrete run scoring exactly 50.00 percent gets the success flag. -/
theorem success_message_iff_final_score_at_least_fifty :
    (∀ (st : EngineState) (q : Question) (ca : Answer) (aid : ℕ) (s : ℤ) (b : Bool),
      (st.taken_quizzes.any fun t => t.1 == st.quiz.id) = false →
      st.quiz.questions.length ≠ 0 →
      (get_unanswered_questions st.quiz st.quiz_answers).head? = some q →
      q.answers.filter (fun a => a.is_correct) = [ca] →
      formIsValid q aid = true →
      (get_unanswered_questions st.quiz (st.quiz_answers ++ [⟨aid⟩])).isEmpty = true →
      (take_quiz st (.post aid)).2 = .redirectQuizList s b →
      (b = true ↔ (50 : ℚ) ≤ (s : ℚ) / 100)) ∧
    (take_quiz wStLast (.post 21)).2 = .redirectQuizList 5000 true := by
  constructor
  · intro st q ca aid s b hnt htq hq hca hv hcomp hout
    have h2 := (complete_submission st q ca aid hnt htq hq hca hv hcomp).2
    rw [hout] at h2
    rw [fifty_le_iff]
    by_cases hlt : divRound ((countCorrect st.quiz (st.quiz_answers ++ [⟨aid⟩]) : ℤ) * 10000)
        st.quiz.questions.length < 5000
    · rw [if_pos hlt] at h2
      injection h2 with hs hb
      subst hs
      subst hb
      simp only [Bool.false_eq_true, false_iff]
      omega
    · rw [if_neg hlt] at h2
      injection h2 with hs hb
      subst hs
      subst hb
      simp only [true_iff]
      omega
  · decide

/-- Witness for C8 at the boundary run of exactly 50.00 percent. -/
theorem success_message_iff_final_score_at_least_fifty_witness :
    true = true ↔ (50 : ℚ) ≤ ((5000 : ℤ) : ℚ) / 100 :=
  success_message_iff_final_score_at_least_fifty.1 wStLast
    ⟨2, [⟨21, false⟩, ⟨22, true⟩]⟩ ⟨22, true⟩ 21 5000 true
    (by decide) (by decide) (by decide) (by decide) (by decide) (by decide) (by decide)

/-- Claim C9: the progress shown on a render equals
100 - round(((unanswered - 1) / total) * 100) over the pre-submission
unanswered count, both on a GET and on a rejected submission; the second
conjunct identifies the integer computation with the rational formula. -/
theorem progress_indicator_formula :
    (∀ (st : EngineState) (q : Question),
      (st.taken_quizzes.any fun t => t.1 == st.quiz.id) = false →
      st.quiz.questions.length ≠ 0 →
      (get_unanswered_questions st.quiz st.quiz_answers).head? = some q →
      (take_quiz st .get).2 = .renderForm (progressOf st)) ∧
    (∀ st : EngineState, st.quiz.questions.length ≠ 0 →
      progressOf st = 100 - pyRound
        ((((get_unanswered_questions st.quiz st.quiz_answers).length : ℚ) - 1)
          / (st.quiz.questions.length : ℚ) * 100)) ∧
    (∀ (st : EngineState) (q : Question) (aid : ℕ),
      (st.taken_quizzes.any fun t => t.1 == st.quiz.id) = false →
      st.quiz.questions.length ≠ 0 →
      (get_unanswered_questions st.quiz st.quiz_answers).head? = some q →
      formIsValid q aid = false →
      (take_quiz st (.post aid)).2 = .renderForm (progressOf st)) := by
  refine ⟨?_, ?_, ?_⟩
  · intro st q hnt htq hq
    simp only [take_quiz, hnt, Bool.false_eq_true, if_false, if_neg htq, hq]
    rfl
  · intro st htq
    rw [progressOf, divRound_eq_pyRound _ _ htq]
    congr 2
    push_cast
    ring_nf
  · intro st q aid hnt htq hq hinv
    simp only [take_quiz, hnt, Bool.false_eq_true, if_false, if_neg htq, hq, hinv]
    rfl

/-- Witness for C9 at the fresh two-question quiz. -/
theorem progress_indicator_formula_witness :
    (take_quiz wSt .get).2 = .renderForm (progressOf wSt) ∧
      progressOf wSt = 100 - pyRound
        ((((get_unanswered_questions wSt.quiz wSt.quiz_answers).length : ℚ) - 1)
          / (wSt.quiz.questions.length : ℚ) * 100) :=
  ⟨progress_indicator_formula.1 wSt ⟨1, [⟨11, true⟩, ⟨12, false⟩]⟩
      (by decide) (by decide) (by decide),
    progress_indicator_formula.2.1 wSt (by decide)⟩

end Classroom

namespace Classroom

set_option maxHeartbeats 2000000 in
/-- Claim C7: under the storage-fault model of `take_quiz_faulty`, the
persisted effect of a submission is all-or-nothing: for every fault
combination the persisted rows either are exactly those of the input state
(full rollback of the transaction of line 95) or exactly those of the
fault-free run; no partial StudentAnswer / TakenQuiz combination exists.
With no fault injected the two functions agree. -/
theorem submission_writes_all_or_nothing :
    ∀ (st : EngineState) (req : Req) (failSave failCreate : Bool),
      take_quiz_faulty st req false false = take_quiz st req ∧
      (((take_quiz_faulty st req failSave failCreate).1.quiz_answers = st.quiz_answers ∧
          (take_quiz_faulty st req failSave failCreate).1.taken_quizzes = st.taken_quizzes) ∨
        ((take_quiz_faulty st req failSave failCreate).1.quiz_answers
            = (take_quiz st req).1.quiz_answers ∧
          (take_quiz_faulty st req failSave failCreate).1.taken_quizzes
            = (take_quiz st req).1.taken_quizzes)) := by
  intro st req b1 b2
  constructor
  · cases req <;> rfl
  · cases req <;> cases b1 <;> cases b2 <;>
      simp only [take_quiz, take_quiz_faulty] <;> (repeat' split) <;>
      first
        | exact Or.inl ⟨rfl, rfl⟩
        | exact Or.inr ⟨rfl, rfl⟩

end Classroom

namespace Classroom

/-- Spec scenario A: both questions of a fresh two-question quiz answered
correctly: running scores 2 then 6, completion with 100.00 percent. -/
example :
    tempScore ((take_quiz wSt (.post 11)).1) = 2 ∧
      tempScore ((take_quiz ((take_quiz wSt (.post 11)).1) (.post 22)).1) = 6 ∧
      (take_quiz ((take_quiz wSt (.post 11)).1) (.post 22)).2
        = .redirectQuizList 10000 true := by
  refine ⟨by decide, by decide, by decide⟩

/-- Spec scenario B: correct then incorrect: running scores 2 then 0,
completion with exactly 50.00 percent and the success message. -/
example :
    tempScore ((take_quiz wSt (.post 11)).1) = 2 ∧
      tempScore ((take_quiz ((take_quiz wSt (.post 11)).1) (.post 21)).1) = 0 ∧
      (take_quiz ((take_quiz wSt (.post 11)).1) (.post 21)).2
        = .redirectQuizList 5000 true := by
  refine ⟨by decide, by decide, by decide⟩

/-- Spec scenario C: on a four-question quiz, correct, incorrect, correct,
correct: running scores 2, 0, 2, 6 and a final score of 75.00 percent. -/
example :
    (let s0 : EngineState :=
      ⟨⟨9, [⟨1, [⟨11, true⟩, ⟨12, false⟩]⟩, ⟨2, [⟨21, false⟩, ⟨22, true⟩]⟩,
          ⟨3, [⟨31, true⟩, ⟨32, false⟩]⟩, ⟨4, [⟨41, false⟩, ⟨42, true⟩]⟩]⟩,
        [], [], fun _ => none⟩
    let s1 := (take_quiz s0 (.post 11)).1
    let s2 := (take_quiz s1 (.post 21)).1
    let s3 := (take_quiz s2 (.post 31)).1
    tempScore s1 = 2 ∧ tempScore s2 = 0 ∧ tempScore s3 = 2 ∧
      tempScore ((take_quiz s3 (.post 42)).1) = 6 ∧
      (take_quiz s3 (.post 42)).2 = .redirectQuizList 7500 true) := by
  refine ⟨by decide, by decide, by decide, by decide, by decide⟩

end Classroom
